import Mathlib

/-!
Shallow embedding of the xdtip backend (bkonai00/xdtip-backend).

The repository contains several variants of the same tipping backend.
The two variants the claims cite are modelled here:

* `src/index.js`  — routes `POST /tip` and `POST /webhook/razorpay`
  (tables `users`, `creators`, `platform_wallet`, `tips`, `transactions`);
* `src/server.js` — routes `POST /tip` (JWT-authenticated) and
  `POST /webhook` (tables `users`, `tips`).

Modelling conventions:

* JavaScript numbers are modelled as exact rationals (`ℚ`); the literal
  `0.92` is modelled as `92/100` and `0.08` as `8/100`.
* Each supabase `.eq(col, v).single()` query is modelled as a first-match
  lookup on the corresponding list; all datastore writes succeed
  (the source never checks their errors).
* `crypto.createHmac("sha256", secret).update(m).digest("hex")` is kept
  abstract as a parameter `hm : String → String → String`; the routes are
  parametric in it and no settled claim depends on the digest values.
-/

set_option maxHeartbeats 1000000
set_option maxRecDepth 100000

/-- Row of the `users` table (src/index.js variant). -/
structure User where
  id : Nat
  username : String
  token_balance : ℚ
deriving DecidableEq, Repr

/-- Row of the `creators` table (src/index.js variant). -/
structure Creator where
  id : Nat
  slug : String
  payout_balance : ℚ
deriving DecidableEq, Repr

/-- Row of the `tips` table (src/index.js variant). -/
structure TipRow where
  viewer_id : Nat
  creator_id : Nat
  amount : ℚ
  message : String
deriving DecidableEq, Repr

/-- Row of the `transactions` table (src/index.js variant).
`user_id` is absent on the `platform_fee` row; `reference_id` is only set
by the webhook (`purchase` rows). -/
structure TxRow where
  user_id : Option Nat
  kind : String
  amount : ℚ
  reference_id : Option String
deriving DecidableEq, Repr

/-- The datastore state seen by src/index.js: the `users`, `creators`,
`tips`, `transactions` tables and the single `platform_wallet` row
(`id = 1`), whose balance is `platform_balance`. -/
structure DB where
  users : List User
  creators : List Creator
  platform_balance : ℚ
  tips : List TipRow
  transactions : List TxRow
deriving DecidableEq, Repr

/-- `supabase.from("users").select(...).eq("username", uname).single()`. -/
def findUser (db : DB) (uname : String) : Option User :=
  db.users.find? (fun u => u.username == uname)

/-- `supabase.from("creators").select(...).eq("slug", slug).single()`. -/
def findCreator (db : DB) (slug : String) : Option Creator :=
  db.creators.find? (fun c => c.slug == slug)

/-- `supabase.from("users").update({token_balance: b}).eq("id", uid)`. -/
def updateUserBalance (db : DB) (uid : Nat) (b : ℚ) : DB :=
  { db with users := db.users.map (fun u =>
      if u.id == uid then { u with token_balance := b } else u) }

/-- `supabase.from("creators").update({payout_balance: b}).eq("id", cid)`. -/
def updateCreatorBalance (db : DB) (cid : Nat) (b : ℚ) : DB :=
  { db with creators := db.creators.map (fun c =>
      if c.id == cid then { c with payout_balance := b } else c) }

/-- Request body of `POST /tip` in src/index.js:
`{ from_username, to_creator, amount, message }`.  A missing string field
is modelled as `""` and a missing amount as `none`; both are falsy in the
source's `!from_username || !to_creator || !amount` check, as is the
number `0`. -/
structure TipBody where
  from_username : String
  to_creator : String
  amount : Option ℚ
  message : String

/-- JS falsiness of the `amount` field (`undefined` or `0`). -/
def jsFalsyNum : Option ℚ → Bool
  | none => true
  | some a => a == 0

/-- Responses of `POST /tip` in src/index.js. -/
inductive TipOutcome where
  /-- 400 `Missing required fields` -/
  | missingFields
  /-- 400 `Minimum tip is 10 tokens` -/
  | belowMin
  /-- 400 `Insufficient tokens` (sender not found, or balance < amount) -/
  | insufficientTokens
  /-- 404 `Creator not found` -/
  | creatorNotFound
  /-- 200 `{success: true, creator_received}` -/
  | success (creator_received : ℚ)
deriving DecidableEq, Repr

/-- `POST /tip` of src/index.js (lines 208–289), as a pure transition on
the datastore state.  The fee split is
`creatorShare = Math.floor(amount * 0.92)`,
`platformShare = amount - creatorShare`; the route debits the sender,
credits the creator's payout balance, credits the platform wallet, and
appends one `tips` row and three `transactions` rows. -/
def tipRoute (db : DB) (body : TipBody) : DB × TipOutcome :=
  if body.from_username == "" || body.to_creator == "" || jsFalsyNum body.amount then
    (db, .missingFields)
  else
    let amount := body.amount.getD 0
    if amount < 10 then (db, .belowMin)
    else
      match findUser db body.from_username with
      | none => (db, .insufficientTokens)
      | some viewer =>
        if viewer.token_balance < amount then (db, .insufficientTokens)
        else
          match findCreator db body.to_creator with
          | none => (db, .creatorNotFound)
          | some creator =>
            let creatorShare : ℚ := ((amount * (92 / 100)).floor : ℤ)
            let platformShare : ℚ := amount - creatorShare
            let db1 : DB := updateUserBalance db viewer.id (viewer.token_balance - amount)
            let db2 : DB := updateCreatorBalance db1 creator.id (creator.payout_balance + creatorShare)
            let db3 : DB := { db2 with platform_balance := db2.platform_balance + platformShare }
            let db4 : DB := { db3 with tips := db3.tips ++ [⟨viewer.id, creator.id, amount, body.message⟩] }
            let db5 : DB := { db4 with transactions := db4.transactions ++
              [⟨some viewer.id, "tip_sent", amount, none⟩,
               ⟨some creator.id, "tip_received", creatorShare, none⟩,
               ⟨none, "platform_fee", platformShare, none⟩] }
            (db5, .success creatorShare)

/-! ## Live notification channel (src/index.js lines 278–289)

After all datastore writes, the route runs
`io.to(to_creator).emit("new_tip", {...})` and then sends the response.
The emit is fire-and-forget: it delivers the event to whatever sockets
currently subscribe to the room named by the creator slug and has no
return value the route inspects.  We model the subscriber table as a
function from room name to the list of subscribed socket ids. -/

/-- `POST /tip` of src/index.js together with its socket.io notification:
the result is the new datastore state, the HTTP response, and the list of
sockets the `new_tip` event was delivered to. -/
def tipRouteWithNotify (subs : String → List Nat) (db : DB) (body : TipBody) :
    DB × TipOutcome × List Nat :=
  match tipRoute db body with
  | (db2, .success r) => (db2, .success r, subs body.to_creator)
  | (db2, out) => (db2, out, [])

/-! ## Razorpay webhook (src/index.js lines 294–346) -/

/-- `event.payload.payment.entity` of a parsed webhook payload:
the paise amount, `payment.notes?.username` (absent notes or username
modelled as `none`), and `payment.id`. -/
structure PaymentEntity where
  amount : ℚ
  notes_username : Option String
  payment_id : String
deriving DecidableEq, Repr

/-- A parsed webhook payload, `JSON.parse(req.body.toString())`.
`payment = none` models a payload whose `payload.payment.entity` chain is
absent, which makes the JS handler throw (HTTP 500). -/
structure RzpEvent where
  event : String
  payment : Option PaymentEntity
deriving DecidableEq, Repr

/-- Responses of `POST /webhook/razorpay` in src/index.js. -/
inductive HookOutcome where
  /-- 400 `Invalid signature` -/
  | invalidSignature
  /-- 200 `{status: "ignored"}` (event is not `payment.captured`) -/
  | ignored
  /-- 400 `Username missing` -/
  | usernameMissing
  /-- 404 `User not found` -/
  | userNotFound
  /-- 200 `{success: true}` -/
  | ok
  /-- uncaught exception → HTTP 500 -/
  | exn
deriving DecidableEq, Repr

/-- HTTP status code of each src/index.js webhook response. -/
def hookStatus : HookOutcome → Nat
  | .invalidSignature => 400
  | .ignored => 200
  | .usernameMissing => 400
  | .userNotFound => 404
  | .ok => 200
  | .exn => 500

/-- `POST /webhook/razorpay` of src/index.js (lines 294–346).

`hm` abstracts `crypto.createHmac("sha256", secret).update(m).digest("hex")`.
This route is mounted behind `express.raw`, so `req.body` is the raw
request bytes `raw`; the handler hashes `raw` itself and only afterwards
parses it (`JSON.parse(req.body.toString())`, whose result is passed here
as `ev`).  The falsy check `!username` also rejects an empty username. -/
def webhookRoute (hm : String → String → String) (secret : String)
    (raw : String) (ev : RzpEvent) (signature : String) (db : DB) :
    DB × HookOutcome :=
  let expected := hm secret raw
  if signature != expected then (db, .invalidSignature)
  else if ev.event != "payment.captured" then (db, .ignored)
  else
    match ev.payment with
    | none => (db, .exn)
    | some payment =>
      let amount : ℚ := payment.amount / 100
      match payment.notes_username with
      | none => (db, .usernameMissing)
      | some username =>
        if username == "" then (db, .usernameMissing)
        else
          match findUser db username with
          | none => (db, .userNotFound)
          | some user =>
            let db1 : DB := updateUserBalance db user.id (user.token_balance + amount)
            let db2 : DB := { db1 with transactions := db1.transactions ++
              [⟨some user.id, "purchase", amount, some payment.payment_id⟩] }
            (db2, .ok)

/-! ## src/server.js variant

server.js keeps a single `users` table whose `balance` column holds the
token balance; creators are just users looked up by username.  Balances
are changed through the SQL functions `decrement_balance` and
`increment_balance`, which are not part of this repository. -/

/-- Row of the `users` table (src/server.js variant). -/
structure SUser where
  id : Nat
  username : String
  balance : ℚ
deriving DecidableEq, Repr

/-- Row of the `tips` table (src/server.js variant). -/
structure STipRow where
  sender_id : Nat
  receiver_id : Nat
  amount : ℚ
  message : String
deriving DecidableEq, Repr

/-- Datastore state seen by src/server.js. -/
structure SDB where
  users : List SUser
  tips : List STipRow
deriving DecidableEq, Repr

/-- `supabase.from('users').select(...).eq('username', uname).single()`. -/
def findSUserByName (db : SDB) (uname : String) : Option SUser :=
  db.users.find? (fun u => u.username == uname)

/-- `supabase.from('users').select(...).eq('id', uid).single()`. -/
def findSUserById (db : SDB) (uid : Nat) : Option SUser :=
  db.users.find? (fun u => u.id == uid)

/-- Modelled from the spec: the SQL functions `decrement_balance` and
`increment_balance` called via `supabase.rpc` exist only in the database,
not in this repository.  Per the spec's atomic-update mandate (§5, §9)
they adjust the stored balance of the given user by the given delta
(`decrement_balance uid amt` is `adjustSBalance db uid (-amt)`). -/
def adjustSBalance (db : SDB) (uid : Nat) (delta : ℚ) : SDB :=
  { db with users := db.users.map (fun u =>
      if u.id == uid then { u with balance := u.balance + delta } else u) }

/-- Responses of `POST /tip` in src/server.js. -/
inductive STipOutcome where
  /-- 400 `Min tip is 10` -/
  | belowMin
  /-- 404 `Creator not found` -/
  | creatorNotFound
  /-- 400 `Insufficient balance` -/
  | insufficientBalance
  /-- 500: the sender row vanished and `sender.balance` threw -/
  | storeError
  /-- 200 `{success: true, message: "Sent N tokens!"}` — the success body
  carries only a message, not the creator's share -/
  | sent
deriving DecidableEq, Repr

/-- Request body of `POST /tip` in src/server.js:
`{ receiverUsername, amount, message }`.  The route is behind
`authenticateToken`, which sets `req.user` from the verified JWT; the
caller identity is therefore a separate argument, not a body field. -/
structure STipBody where
  receiverUsername : String
  amount : ℚ
  message : String

/-- `POST /tip` of src/server.js (lines 148–179).  `senderId` is
`req.user.id` from the verified bearer token.  The fee split is
`platformFee = amount * 0.08`, `creatorShare = amount - platformFee`,
with no flooring; the platform fee is computed but never credited to any
wallet — the route only debits the sender and credits the receiver. -/
def serverTipRoute (db : SDB) (senderId : Nat) (body : STipBody) :
    SDB × STipOutcome :=
  if body.amount < 10 then (db, .belowMin)
  else
    match findSUserByName db body.receiverUsername with
    | none => (db, .creatorNotFound)
    | some receiver =>
      match findSUserById db senderId with
      | none => (db, .storeError)
      | some sender =>
        if sender.balance < body.amount then (db, .insufficientBalance)
        else
          let platformFee : ℚ := body.amount * (8 / 100)
          let creatorShare : ℚ := body.amount - platformFee
          let db1 : SDB := adjustSBalance db senderId (-body.amount)
          let db2 : SDB := adjustSBalance db1 receiver.id creatorShare
          let db3 : SDB := { db2 with tips := db2.tips ++
            [⟨senderId, receiver.id, body.amount, body.message⟩] }
          (db3, .sent)

/-! ## src/server.js webhook (lines 236–280)

The webhook route sits behind `express.json()`, so `req.body` is the
*parsed* JSON value; the raw request bytes are gone by the time the
handler runs.  The handler re-serializes the parsed body
(`shasum.update(JSON.stringify(req.body))`) and hashes that. -/

/-- Parsed JSON values.  JS `undefined` is conflated with `null`, which
is adequate here because the handler only reads properties and checks
falsiness. -/
inductive Json where
  | null
  | jbool (b : Bool)
  | jnum (n : Int)
  | jstr (s : String)
  | jobj (fields : List (String × Json))

/-- `JSON.stringify`, fuel-indexed so that it is structurally recursive.
Matches the JS output for the values used in this development: objects
print as comma-separated `"key":value` pairs with no whitespace; string
escaping is not modelled (no value in this file contains a quote or a
backslash). -/
def jsonStringifyF : Nat → Json → String
  | _, .null => "null"
  | _, .jbool b => if b then "true" else "false"
  | _, .jnum n => toString n
  | _, .jstr s => "\"" ++ s ++ "\""
  | 0, .jobj _ => ""
  | fuel + 1, .jobj fs =>
      "\x7b" ++ String.intercalate ","
        (fs.map (fun p => "\"" ++ p.1 ++ "\":" ++ jsonStringifyF fuel p.2)) ++ "\x7d"

/-- `JSON.stringify`.  The fuel `1000` bounds the nesting depth; the
function is exact on every value whose objects nest fewer than 1000
levels deep, which covers every JSON value in this development (webhook
payloads nest four levels). -/
def jsonStringify (j : Json) : String := jsonStringifyF 1000 j

/-- JS property access `j[k]`.  Reading a property of `null`/`undefined`
throws (`.error`); reading an absent property of an object, or any
property of another primitive, yields `undefined` (modelled `.null`). -/
def jsGet (j : Json) (k : String) : Except Unit Json :=
  match j with
  | .null => .error ()
  | .jobj fs =>
    .ok (match fs.find? (fun p => p.1 == k) with
         | some p => p.2
         | none => .null)
  | _ => .ok .null

/-- JS truthiness of a parsed JSON value. -/
def jsTruthy : Json → Bool
  | .null => false
  | .jbool b => b
  | .jnum n => n != 0
  | .jstr s => s != ""
  | .jobj _ => true

/-- JS strict equality `j === s` for a string literal `s`. -/
def jsStrEq (j : Json) (s : String) : Bool :=
  match j with
  | .jstr t => t == s
  | _ => false

/-- Responses of `POST /webhook` in src/server.js. -/
inductive SrvHookOutcome where
  /-- 400 `Invalid signature` -/
  | invalidSignature
  /-- 200 `{status: 'ok'}` -/
  | okStatus
  /-- 200 `{status: 'ignored_no_username'}` -/
  | ignoredNoUsername
  /-- uncaught exception while reading the payload → HTTP 500 -/
  | exn
deriving DecidableEq, Repr

/-- HTTP status code of each src/server.js webhook response. -/
def srvHookStatus : SrvHookOutcome → Nat
  | .invalidSignature => 400
  | .okStatus => 200
  | .ignoredNoUsername => 200
  | .exn => 500

/-- The string src/server.js feeds to the HMAC: `JSON.stringify(req.body)`,
a re-serialization of the already-parsed body, not the raw request
bytes. -/
def serverWebhookHmacInput (body : Json) : String := jsonStringify body

/-- The payload reads of the src/server.js capture branch:
`req.body.payload.payment.entity`, then `entity.amount` and
`entity.notes.username || entity.notes.Username`.  A read through
`null`/`undefined` throws in JS (`.error`). -/
def serverWebhookTarget (body : Json) : Except Unit (Json × Json) := do
  let payload ← jsGet body "payload"
  let payment ← jsGet payload "payment"
  let entity ← jsGet payment "entity"
  let amountJ ← jsGet entity "amount"
  let notes ← jsGet entity "notes"
  let u1 ← jsGet notes "username"
  let u2 ← jsGet notes "Username"
  pure (amountJ, if jsTruthy u1 then u1 else u2)

/-- `POST /webhook` of src/server.js (lines 236–280).  `hm` abstracts
HMAC-SHA256 as in `webhookRoute`; `body` is the parsed request body.  On
a valid digest and a `payment.captured` event, the handler reads
`payload.payment.entity`, converts `payment.amount / 100`, reads the
target username from `payment.notes.username || payment.notes.Username`,
and credits the user if one matches; a failed lookup is logged and still
answered `{status:'ok'}`.  A non-numeric `amount` would be `NaN` in JS;
the theorems below only instantiate numeric amounts. -/
def serverWebhookRoute (hm : String → String → String) (secret : String)
    (body : Json) (signature : String) (db : SDB) : SDB × SrvHookOutcome :=
  let digest := hm secret (serverWebhookHmacInput body)
  if digest == signature then
    if jsStrEq (match jsGet body "event" with | .ok v => v | .error _ => .null) "payment.captured" then
      match serverWebhookTarget body with
      | .error _ => (db, .exn)
      | .ok (amountJ, targetUser) =>
        let amount : ℚ := (match amountJ with | .jnum n => (n : ℚ) | _ => 0) / 100
        if !(jsTruthy targetUser) then (db, .ignoredNoUsername)
        else
          let db2 : SDB :=
            match targetUser with
            | .jstr s =>
              match findSUserByName db s with
              | some user => adjustSBalance db user.id amount
              | none => db
            | _ => db
          (db2, .okStatus)
    else (db, .okStatus)
  else (db, .invalidSignature)

/-! ## Helper lemmas -/

/-- `Rat.floor` (used in the executable definitions) agrees with the
mathematical floor `⌊·⌋` on `ℚ`. -/
theorem ratFloor_eq_floor (q : ℚ) : q.floor = ⌊q⌋ := rfl

/-- `find?` over a mapped list. -/
theorem find?_map_eq {α β : Type} (f : α → β) (p : β → Bool) :
    ∀ l : List α, (l.map f).find? p = (l.find? (fun a => p (f a))).map f
  | [] => rfl
  | a :: l => by
    by_cases h : p (f a) = true
    · simp [List.find?, h]
    · simp only [Bool.not_eq_true] at h
      simp [List.find?, h, find?_map_eq f p l]

/-- Updating a user's balance commutes with username lookup. -/
theorem findUser_updateUserBalance (db : DB) (uid : Nat) (b : ℚ) (name : String) :
    findUser (updateUserBalance db uid b) name =
      (findUser db name).map
        (fun u => if u.id == uid then { u with token_balance := b } else u) := by
  unfold findUser updateUserBalance
  rw [find?_map_eq]
  have hp : (fun a : User =>
      (if (a.id == uid) = true then { a with token_balance := b } else a).username == name) =
      (fun u : User => u.username == name) := by
    funext u
    by_cases h : (u.id == uid) = true <;> simp [h]
  rw [hp]

/-- Updating a creator's payout balance commutes with slug lookup. -/
theorem findCreator_updateCreatorBalance (db : DB) (cid : Nat) (b : ℚ) (slug : String) :
    findCreator (updateCreatorBalance db cid b) slug =
      (findCreator db slug).map
        (fun c => if c.id == cid then { c with payout_balance := b } else c) := by
  unfold findCreator updateCreatorBalance
  rw [find?_map_eq]
  have hp : (fun a : Creator =>
      (if (a.id == cid) = true then { a with payout_balance := b } else a).slug == slug) =
      (fun c : Creator => c.slug == slug) := by
    funext c
    by_cases h : (c.id == cid) = true <;> simp [h]
  rw [hp]

/-- Lookups only read the `users` table, which `updateCreatorBalance`
leaves untouched. -/
theorem findUser_updateCreatorBalance (db : DB) (cid : Nat) (b : ℚ) (name : String) :
    findUser (updateCreatorBalance db cid b) name = findUser db name := rfl

/-! ## C1 -/

/-- C1 (amended, src/index.js part): every successful settlement of the
index.js variant splits `amount` as `creatorShare = ⌊amount * 0.92⌋` and
`platformShare = amount - creatorShare`; the two shares sum back to
`amount` exactly, the sender is debited `amount`, the creator payout is
credited `creatorShare`, the platform wallet is credited `platformShare`,
and one tips row plus three transactions rows are appended. -/
theorem tip_fee_split_conservation
    (db : DB) (body : TipBody) (a : ℚ) (s : User) (c : Creator)
    (hfrom : ¬ body.from_username = "") (hto : ¬ body.to_creator = "")
    (ha : body.amount = some a) (ha0 : ¬ a = 0)
    (hmin : ¬ a < 10)
    (hs : findUser db body.from_username = some s)
    (hbal : ¬ s.token_balance < a)
    (hc : findCreator db body.to_creator = some c) :
    (tipRoute db body).2 = .success (((a * (92 / 100)).floor : ℤ) : ℚ) ∧
    (((a * (92 / 100)).floor : ℤ) : ℚ) + (a - (((a * (92 / 100)).floor : ℤ) : ℚ)) = a ∧
    findUser (tipRoute db body).1 body.from_username =
      some { s with token_balance := s.token_balance - a } ∧
    findCreator (tipRoute db body).1 body.to_creator =
      some { c with payout_balance := c.payout_balance + (((a * (92 / 100)).floor : ℤ) : ℚ) } ∧
    (tipRoute db body).1.platform_balance =
      db.platform_balance + (a - (((a * (92 / 100)).floor : ℤ) : ℚ)) ∧
    (tipRoute db body).1.tips.length = db.tips.length + 1 ∧
    (tipRoute db body).1.transactions.length = db.transactions.length + 3 := by
  have hres : tipRoute db body =
      (let cs : ℚ := ((a * (92 / 100)).floor : ℤ)
       let db1 : DB := updateUserBalance db s.id (s.token_balance - a)
       let db2 : DB := updateCreatorBalance db1 c.id (c.payout_balance + cs)
       let db3 : DB := { db2 with platform_balance := db2.platform_balance + (a - cs) }
       let db4 : DB := { db3 with tips := db3.tips ++ [⟨s.id, c.id, a, body.message⟩] }
       ({ db4 with transactions := db4.transactions ++
          [⟨some s.id, "tip_sent", a, none⟩,
           ⟨some c.id, "tip_received", cs, none⟩,
           ⟨none, "platform_fee", a - cs, none⟩] }, .success cs)) := by
    unfold tipRoute
    have hfield : ¬ (body.from_username == "" || body.to_creator == "" ||
        jsFalsyNum body.amount) = true := by
      simp [ha, jsFalsyNum, hfrom, hto, ha0]
    rw [if_neg hfield]
    simp only [ha, Option.getD_some, hs, hc, if_neg hmin, if_neg hbal]
  rw [hres]
  have hcs : findUser (updateUserBalance db s.id (s.token_balance - a)) body.from_username =
      some { s with token_balance := s.token_balance - a } := by
    rw [findUser_updateUserBalance, hs]
    simp
  have hcc : findCreator
      (updateCreatorBalance (updateUserBalance db s.id (s.token_balance - a)) c.id
        (c.payout_balance + (((a * (92 / 100)).floor : ℤ) : ℚ))) body.to_creator =
      some { c with payout_balance := c.payout_balance + (((a * (92 / 100)).floor : ℤ) : ℚ) } := by
    rw [findCreator_updateCreatorBalance]
    have : findCreator (updateUserBalance db s.id (s.token_balance - a)) body.to_creator =
        findCreator db body.to_creator := rfl
    rw [this, hc]
    simp
  refine ⟨rfl, by ring, ?_, ?_, ?_, ?_, ?_⟩
  · exact hcs
  · exact hcc
  · rfl
  · simp [updateUserBalance, updateCreatorBalance]
  · simp [updateUserBalance, updateCreatorBalance]

/-- C1 witness: spec scenario 1 on the index.js variant — sender balance
500, tip amount 100: response `creator_received = 92`, sender balance
400, creator payout +92, platform wallet +8, one tips row, three
transactions rows. -/
theorem tip_fee_split_conservation_witness :
    (tipRoute ⟨[⟨1, "alice", 500⟩], [⟨7, "bob", 0⟩], 0, [], []⟩
        ⟨"alice", "bob", some 100, "gg"⟩).2 = .success 92 ∧
    findUser (tipRoute ⟨[⟨1, "alice", 500⟩], [⟨7, "bob", 0⟩], 0, [], []⟩
        ⟨"alice", "bob", some 100, "gg"⟩).1 "alice" = some ⟨1, "alice", 400⟩ ∧
    findCreator (tipRoute ⟨[⟨1, "alice", 500⟩], [⟨7, "bob", 0⟩], 0, [], []⟩
        ⟨"alice", "bob", some 100, "gg"⟩).1 "bob" = some ⟨7, "bob", 92⟩ ∧
    (tipRoute ⟨[⟨1, "alice", 500⟩], [⟨7, "bob", 0⟩], 0, [], []⟩
        ⟨"alice", "bob", some 100, "gg"⟩).1.platform_balance = 0 + 8 ∧
    (tipRoute ⟨[⟨1, "alice", 500⟩], [⟨7, "bob", 0⟩], 0, [], []⟩
        ⟨"alice", "bob", some 100, "gg"⟩).1.tips.length = 1 ∧
    (tipRoute ⟨[⟨1, "alice", 500⟩], [⟨7, "bob", 0⟩], 0, [], []⟩
        ⟨"alice", "bob", some 100, "gg"⟩).1.transactions.length = 3 := by
  have h := tip_fee_split_conservation
    ⟨[⟨1, "alice", 500⟩], [⟨7, "bob", 0⟩], 0, [], []⟩
    ⟨"alice", "bob", some 100, "gg"⟩ 100 ⟨1, "alice", 500⟩ ⟨7, "bob", 0⟩
    (by decide) (by decide) rfl (by with_unfolding_all decide)
    (by with_unfolding_all decide) (by with_unfolding_all decide)
    (by with_unfolding_all decide) (by with_unfolding_all decide)
  obtain ⟨h1, -, h3, h4, h5, h6, h7⟩ := h
  refine ⟨?_, ?_, ?_, ?_, ?_, ?_⟩
  · with_unfolding_all exact h1
  · with_unfolding_all exact h3
  · with_unfolding_all exact h4
  · with_unfolding_all exact h5
  · exact h6
  · exact h7

/-- C1 counterexample: in the src/server.js variant a successful
settlement of amount 30 credits the receiver `30 - 30*0.08 = 27.6`
tokens — not `⌊30 * 0.92⌋ = 27` — and credits no platform wallet at all
(the server.js schema has none; the computed `platformFee` is dropped).
The claim's fee-split equation is therefore false for this successful
settlement with integer amount ≥ MIN_TIP. -/
theorem srv_tip_share_not_floored_cex :
    (serverTipRoute ⟨[⟨1, "v", 100⟩, ⟨2, "c", 50⟩], []⟩ 1 ⟨"c", 30, "m"⟩).2 = .sent ∧
    (serverTipRoute ⟨[⟨1, "v", 100⟩, ⟨2, "c", 50⟩], []⟩ 1 ⟨"c", 30, "m"⟩).1.users =
      [⟨1, "v", 70⟩, ⟨2, "c", 50 + 138 / 5⟩] ∧
    ¬ (138 / 5 : ℚ) = ((((30 : ℚ) * (92 / 100)).floor : ℤ) : ℚ) := by
  refine ⟨?_, ?_, ?_⟩ <;> with_unfolding_all decide

/-! ## C2 -/

/-- C2 (amended): the src/index.js settlement validates in this order —
(1) required fields present, (2) `amount ≥ 10`, (3) sender exists AND has
balance ≥ amount (one merged check, both failures answered
`Insufficient tokens`), (4) receiver slug resolves.  The first failing
check determines the response and every failing check leaves the
datastore unchanged. -/
theorem tip_validation_order :
    (∀ db body, (body.from_username == "" || body.to_creator == "" ||
        jsFalsyNum body.amount) = true →
      tipRoute db body = (db, .missingFields)) ∧
    (∀ db body a, body.amount = some a → ¬ a = 0 →
        ¬ body.from_username = "" → ¬ body.to_creator = "" → a < 10 →
      tipRoute db body = (db, .belowMin)) ∧
    (∀ db body a, body.amount = some a → ¬ a = 0 →
        ¬ body.from_username = "" → ¬ body.to_creator = "" → ¬ a < 10 →
        (findUser db body.from_username = none ∨
          ∃ s, findUser db body.from_username = some s ∧ s.token_balance < a) →
      tipRoute db body = (db, .insufficientTokens)) ∧
    (∀ db body a s, body.amount = some a → ¬ a = 0 →
        ¬ body.from_username = "" → ¬ body.to_creator = "" → ¬ a < 10 →
        findUser db body.from_username = some s → ¬ s.token_balance < a →
        findCreator db body.to_creator = none →
      tipRoute db body = (db, .creatorNotFound)) := by
  refine ⟨?_, ?_, ?_, ?_⟩
  · intro db body h
    unfold tipRoute
    rw [if_pos h]
  · intro db body a ha ha0 hfrom hto hlt
    unfold tipRoute
    rw [if_neg (by simp [ha, jsFalsyNum, hfrom, hto, ha0])]
    simp only [ha, Option.getD_some]
    rw [if_pos hlt]
  · intro db body a ha ha0 hfrom hto hmin hs
    unfold tipRoute
    rw [if_neg (by simp [ha, jsFalsyNum, hfrom, hto, ha0])]
    simp only [ha, Option.getD_some]
    rw [if_neg hmin]
    rcases hs with hnone | ⟨s, hsome, hlt⟩
    · rw [hnone]
    · rw [hsome]
      simp only [if_pos hlt]
  · intro db body a s ha ha0 hfrom hto hmin hs hbal hc
    unfold tipRoute
    rw [if_neg (by simp [ha, jsFalsyNum, hfrom, hto, ha0])]
    simp only [ha, Option.getD_some]
    rw [if_neg hmin, hs]
    simp only [if_neg hbal, hc]

/-- C2 witness: spec scenario 2 (sender balance 5, amount 10) is rejected
`Insufficient tokens` with the datastore unchanged; amount 5 is rejected
by the amount bound first. -/
theorem tip_validation_order_witness :
    tipRoute ⟨[⟨1, "alice", 5⟩], [], 0, [], []⟩ ⟨"alice", "bob", some 10, "m"⟩ =
      (⟨[⟨1, "alice", 5⟩], [], 0, [], []⟩, .insufficientTokens) ∧
    tipRoute ⟨[⟨1, "alice", 5⟩], [], 0, [], []⟩ ⟨"alice", "bob", some 5, "m"⟩ =
      (⟨[⟨1, "alice", 5⟩], [], 0, [], []⟩, .belowMin) := by
  constructor
  · exact tip_validation_order.2.2.1
      ⟨[⟨1, "alice", 5⟩], [], 0, [], []⟩ ⟨"alice", "bob", some 10, "m"⟩ 10
      rfl (by decide) (by decide) (by decide) (by with_unfolding_all decide)
      (.inr ⟨⟨1, "alice", 5⟩, by with_unfolding_all decide,
        by with_unfolding_all decide⟩)
  · exact tip_validation_order.2.1
      ⟨[⟨1, "alice", 5⟩], [], 0, [], []⟩ ⟨"alice", "bob", some 5, "m"⟩ 5
      rfl (by decide) (by decide) (by decide) (by with_unfolding_all decide)

/-- C2 counterexample: with sender balance 5, amount 10 and a receiver
slug that resolves to no creator, src/index.js answers
`Insufficient tokens`, although under the claimed order (receiver
resolution before the balance check) the first failing check would be
ReceiverNotFound; and a nonexistent sender is also answered
`Insufficient tokens`, not a distinct SenderNotFound error. -/
theorem tip_validation_order_cex :
    tipRoute ⟨[⟨1, "alice", 5⟩], [], 0, [], []⟩ ⟨"alice", "bob", some 10, "m"⟩ =
      (⟨[⟨1, "alice", 5⟩], [], 0, [], []⟩, .insufficientTokens) ∧
    findCreator ⟨[⟨1, "alice", 5⟩], [], 0, [], []⟩ "bob" = none ∧
    findUser ⟨[⟨1, "alice", 5⟩], [], 0, [], []⟩ "alice" = some ⟨1, "alice", 5⟩ ∧
    tipRoute ⟨[], [⟨7, "bob", 0⟩], 0, [], []⟩ ⟨"ghost", "bob", some 10, "m"⟩ =
      (⟨[], [⟨7, "bob", 0⟩], 0, [], []⟩, .insufficientTokens) := by
  refine ⟨?_, ?_, ?_, ?_⟩ <;> with_unfolding_all decide

/-! ## Result shape of the two src/index.js routes -/

/-- Either a settlement attempt fails and leaves the datastore unchanged,
or all four checks pass and the result is the explicit success state. -/
theorem tipRoute_result_cases (db : DB) (body : TipBody) :
    ((tipRoute db body).1 = db ∧ ∀ r, ¬ (tipRoute db body).2 = .success r) ∨
    ∃ viewer creator,
      findUser db body.from_username = some viewer ∧
      findCreator db body.to_creator = some creator ∧
      ¬ body.amount.getD 0 < 10 ∧
      ¬ viewer.token_balance < body.amount.getD 0 ∧
      tipRoute db body =
        (let a := body.amount.getD 0
         let cs : ℚ := ((a * (92 / 100)).floor : ℤ)
         let db1 : DB := updateUserBalance db viewer.id (viewer.token_balance - a)
         let db2 : DB := updateCreatorBalance db1 creator.id (creator.payout_balance + cs)
         let db3 : DB := { db2 with platform_balance := db2.platform_balance + (a - cs) }
         let db4 : DB := { db3 with tips := db3.tips ++ [⟨viewer.id, creator.id, a, body.message⟩] }
         ({ db4 with transactions := db4.transactions ++
            [⟨some viewer.id, "tip_sent", a, none⟩,
             ⟨some creator.id, "tip_received", cs, none⟩,
             ⟨none, "platform_fee", a - cs, none⟩] }, .success cs)) := by
  unfold tipRoute
  by_cases hf : (body.from_username == "" || body.to_creator == "" ||
      jsFalsyNum body.amount) = true
  · rw [if_pos hf]
    exact Or.inl ⟨rfl, fun r h => TipOutcome.noConfusion h⟩
  rw [if_neg hf]
  by_cases hmin : body.amount.getD 0 < 10
  · simp only [if_pos hmin]
    exact Or.inl (by simp)
  simp only [if_neg hmin]
  cases hview : findUser db body.from_username with
  | none => exact Or.inl ⟨rfl, fun r h => TipOutcome.noConfusion h⟩
  | some viewer =>
    by_cases hbal : viewer.token_balance < body.amount.getD 0
    · simp only [if_pos hbal]
      exact Or.inl (by simp)
    simp only [if_neg hbal]
    cases hcrea : findCreator db body.to_creator with
    | none => exact Or.inl ⟨rfl, fun r h => TipOutcome.noConfusion h⟩
    | some creator =>
      exact Or.inr ⟨viewer, creator, rfl, rfl, hmin, hbal, rfl⟩

/-- Either a webhook delivery to src/index.js leaves the datastore
unchanged, or the signature matched, the event was a capture with a
truthy username resolving to a user, and the result is the explicit
credited state. -/
theorem webhookRoute_result_cases (hm : String → String → String)
    (secret raw : String) (ev : RzpEvent) (signature : String) (db : DB) :
    (webhookRoute hm secret raw ev signature db).1 = db ∨
    ∃ payment username user,
      ev.payment = some payment ∧
      payment.notes_username = some username ∧
      findUser db username = some user ∧
      webhookRoute hm secret raw ev signature db =
        (let amt : ℚ := payment.amount / 100
         let db1 : DB := updateUserBalance db user.id (user.token_balance + amt)
         ({ db1 with transactions := db1.transactions ++
            [⟨some user.id, "purchase", amt, some payment.payment_id⟩] }, .ok)) := by
  unfold webhookRoute
  by_cases hsig : (signature != hm secret raw) = true
  · rw [if_pos hsig]
    exact Or.inl rfl
  rw [if_neg hsig]
  by_cases hev : (ev.event != "payment.captured") = true
  · rw [if_pos hev]
    exact Or.inl rfl
  rw [if_neg hev]
  cases hpay : ev.payment with
  | none => exact Or.inl rfl
  | some payment =>
    dsimp only
    cases husr : payment.notes_username with
    | none => exact Or.inl rfl
    | some username =>
      dsimp only
      by_cases hemp : (username == "") = true
      · simp only [if_pos hemp]
        exact Or.inl trivial
      simp only [if_neg hemp]
      cases huser : findUser db username with
      | none => exact Or.inl rfl
      | some user =>
        exact Or.inr ⟨payment, username, user, rfl, husr, huser, rfl⟩

/-! ## C3 -/

/-- All balances in the src/index.js datastore are non-negative. -/
def DB.nonneg (db : DB) : Prop :=
  (∀ u ∈ db.users, 0 ≤ u.token_balance) ∧
  (∀ c ∈ db.creators, 0 ≤ c.payout_balance) ∧
  0 ≤ db.platform_balance

/-- A settlement attempt never drives a balance negative: on failure it
leaves the datastore untouched; on success the guards `¬ amount < 10`
and `¬ balance < amount` keep every new balance non-negative. -/
theorem tipRoute_preserves_nonneg (db : DB) (body : TipBody)
    (h : DB.nonneg db) : DB.nonneg (tipRoute db body).1 := by
  obtain ⟨hu, hc, hp⟩ := h
  rcases tipRoute_result_cases db body with ⟨heq, -⟩ | ⟨viewer, creator, hview, hcrea, hmin, hbal, heq⟩
  · rw [heq]
    exact ⟨hu, hc, hp⟩
  rw [heq]
  have hvmem : viewer ∈ db.users := List.mem_of_find?_eq_some hview
  have hcmem : creator ∈ db.creators := List.mem_of_find?_eq_some hcrea
  have ha10 : (10 : ℚ) ≤ body.amount.getD 0 := not_lt.mp hmin
  have ha0 : (0 : ℚ) ≤ body.amount.getD 0 := le_trans (by norm_num) ha10
  have hshare0 : (0 : ℚ) ≤ (((body.amount.getD 0 * (92 / 100)).floor : ℤ) : ℚ) := by
    rw [ratFloor_eq_floor]
    exact Int.cast_nonneg.mpr (Int.floor_nonneg.mpr (by positivity))
  have hplat0 : (0 : ℚ) ≤
      body.amount.getD 0 - (((body.amount.getD 0 * (92 / 100)).floor : ℤ) : ℚ) := by
    have h1 : (((body.amount.getD 0 * (92 / 100)).floor : ℤ) : ℚ) ≤
        body.amount.getD 0 * (92 / 100) := by
      rw [ratFloor_eq_floor]
      exact Int.floor_le _
    nlinarith
  refine ⟨?_, ?_, ?_⟩
  · intro u humem
    simp only [updateUserBalance, updateCreatorBalance, List.mem_map] at humem
    obtain ⟨v, hv, rfl⟩ := humem
    by_cases hvid : (v.id == viewer.id) = true
    · simp only [hvid, if_true]
      exact sub_nonneg.mpr (not_lt.mp hbal)
    · simp only [hvid, if_false]
      exact hu v hv
  · intro c0 hcm
    simp only [updateUserBalance, updateCreatorBalance, List.mem_map] at hcm
    obtain ⟨v, hv, rfl⟩ := hcm
    by_cases hvid : (v.id == creator.id) = true
    · simp only [hvid, if_true]
      exact add_nonneg (hc creator hcmem) hshare0
    · simp only [hvid, if_false]
      exact hc v hv
  · exact add_nonneg hp hplat0

/-- A settlement attempted against insufficient funds is a pure no-op on
the datastore. -/
theorem tipRoute_insufficient_unchanged (db : DB) (body : TipBody) (s : User)
    (hs : findUser db body.from_username = some s)
    (hlt : s.token_balance < body.amount.getD 0) :
    (tipRoute db body).1 = db := by
  rcases tipRoute_result_cases db body with ⟨heq, -⟩ | ⟨viewer, _, hview, _, _, hbal, _⟩
  · exact heq
  · rw [hs] at hview
    cases hview
    exact absurd hlt hbal

/-- The webhook credit `payment.amount / 100` preserves non-negative
balances whenever the event's paise amount is non-negative. -/
theorem webhookRoute_preserves_nonneg (hm : String → String → String)
    (secret raw : String) (ev : RzpEvent) (signature : String) (db : DB)
    (h : DB.nonneg db) (hamt : ∀ e, ev.payment = some e → 0 ≤ e.amount) :
    DB.nonneg (webhookRoute hm secret raw ev signature db).1 := by
  obtain ⟨hu, hc, hp⟩ := h
  rcases webhookRoute_result_cases hm secret raw ev signature db with
    heq | ⟨payment, username, user, hpay, _, huser, heq⟩
  · rw [heq]
    exact ⟨hu, hc, hp⟩
  rw [heq]
  have humem : user ∈ db.users := List.mem_of_find?_eq_some huser
  have hamt0 : (0 : ℚ) ≤ payment.amount / 100 := by
    have := hamt payment hpay
    positivity
  refine ⟨?_, hc, hp⟩
  intro u hum
  simp only [updateUserBalance, List.mem_map] at hum
  obtain ⟨v, hv, rfl⟩ := hum
  by_cases hvid : (v.id == user.id) = true
  · simp only [hvid, if_true]
    exact add_nonneg (hu user humem) hamt0
  · simp only [hvid, if_false]
    exact hu v hv

/-- C3 (amended): starting from non-negative balances, every settlement
attempt of src/index.js leaves all balances non-negative, a settlement
attempted against insufficient funds leaves the datastore unchanged, and
a webhook delivery leaves all balances non-negative *provided* the
event's payment amount is non-negative.  Without that proviso the claim
fails: the webhook credits `payment.amount / 100` unchecked, so a
validly signed capture event with a negative amount drives the target
balance negative (see the counterexample). -/
theorem balances_nonneg :
    (∀ db body, DB.nonneg db → DB.nonneg (tipRoute db body).1) ∧
    (∀ db body s, findUser db body.from_username = some s →
        s.token_balance < body.amount.getD 0 → (tipRoute db body).1 = db) ∧
    (∀ hm secret raw ev signature db, DB.nonneg db →
        (∀ e, RzpEvent.payment ev = some e → 0 ≤ e.amount) →
        DB.nonneg (webhookRoute hm secret raw ev signature db).1) :=
  ⟨tipRoute_preserves_nonneg, tipRoute_insufficient_unchanged,
    fun hm secret raw ev signature db h hamt =>
      webhookRoute_preserves_nonneg hm secret raw ev signature db h hamt⟩

/-- C3 witness: on concrete non-negative stores, a successful settlement
keeps all balances non-negative, an insufficient-funds settlement
(balance 5, amount 10) keeps the store unchanged, and a 150-paise
webhook credit keeps all balances non-negative. -/
theorem balances_nonneg_witness :
    DB.nonneg (tipRoute ⟨[⟨1, "alice", 500⟩], [⟨7, "bob", 0⟩], 0, [], []⟩
      ⟨"alice", "bob", some 100, "m"⟩).1 ∧
    (tipRoute ⟨[⟨1, "alice", 5⟩], [⟨7, "bob", 0⟩], 0, [], []⟩
      ⟨"alice", "bob", some 10, "m"⟩).1 =
      ⟨[⟨1, "alice", 5⟩], [⟨7, "bob", 0⟩], 0, [], []⟩ ∧
    DB.nonneg (webhookRoute (fun k m => k ++ "|" ++ m) "sec" "raw"
      ⟨"payment.captured", some ⟨150, some "alice", "pay_1"⟩⟩ "sec|raw"
      ⟨[⟨1, "alice", 0⟩], [], 0, [], []⟩).1 := by
  refine ⟨?_, ?_, ?_⟩
  · exact balances_nonneg.1 _ _ (by refine ⟨?_, ?_, ?_⟩ <;> with_unfolding_all decide)
  · exact balances_nonneg.2.1 _ ⟨"alice", "bob", some 10, "m"⟩ ⟨1, "alice", 5⟩
      (by with_unfolding_all decide) (by with_unfolding_all decide)
  · exact balances_nonneg.2.2 _ "sec" "raw" _ "sec|raw" _
      (by refine ⟨?_, ?_, ?_⟩ <;> with_unfolding_all decide)
      (by intro e he; cases he; with_unfolding_all decide)

/-- C3 counterexample: a validly signed `payment.captured` event whose
`payment.amount` is `-500` paise is credited unchecked by src/index.js,
driving the target balance from 0 to -5 — an operation that drives a
balance below zero, contradicting the claim as stated. -/
theorem webhook_negative_credit_cex :
    (webhookRoute (fun k m => k ++ "|" ++ m) "sec" "raw"
      ⟨"payment.captured", some ⟨-500, some "alice", "pay_2"⟩⟩ "sec|raw"
      ⟨[⟨1, "alice", 0⟩], [], 0, [], []⟩).2 = .ok ∧
    findUser (webhookRoute (fun k m => k ++ "|" ++ m) "sec" "raw"
      ⟨"payment.captured", some ⟨-500, some "alice", "pay_2"⟩⟩ "sec|raw"
      ⟨[⟨1, "alice", 0⟩], [], 0, [], []⟩).1 "alice" = some ⟨1, "alice", -5⟩ ∧
    ¬ (0 : ℚ) ≤ -5 := by
  refine ⟨?_, ?_, ?_⟩ <;> with_unfolding_all decide

/-! ## C4 -/

/-- C4 (amended): on a signature mismatch both webhook variants answer
400 `Invalid signature` before any processing, with the datastore
untouched.  src/index.js computes the expected digest over the exact raw
request bytes (the route is mounted behind `express.raw`); src/server.js
instead computes it over `JSON.stringify(req.body)`, a re-serialization
of the parsed body.  Both compare digests with ordinary string equality
(`!==` / `===`); the timing behaviour of that comparison is outside this
model. -/
theorem webhook_signature_enforcement :
    (∀ hm secret raw ev signature db, ¬ signature = hm secret raw →
      webhookRoute hm secret raw ev signature db = (db, .invalidSignature)) ∧
    (∀ hm secret body signature db,
        ¬ hm secret (serverWebhookHmacInput body) = signature →
      serverWebhookRoute hm secret body signature db = (db, .invalidSignature)) := by
  constructor
  · intro hm secret raw ev signature db h
    unfold webhookRoute
    rw [if_pos (by simp [bne_iff_ne, h])]
  · intro hm secret body signature db h
    unfold serverWebhookRoute
    simp only [if_neg (by simp [h] : ¬ (hm secret (serverWebhookHmacInput body) ==
      signature) = true)]

/-- C4 witness: concrete wrong signatures are rejected by both variants
with the store unchanged. -/
theorem webhook_signature_enforcement_witness :
    webhookRoute (fun k m => k ++ "/" ++ m) "s" "body"
      ⟨"payment.captured", some ⟨100, some "alice", "p"⟩⟩ "WRONG"
      ⟨[⟨1, "alice", 0⟩], [], 0, [], []⟩ =
      (⟨[⟨1, "alice", 0⟩], [], 0, [], []⟩, .invalidSignature) ∧
    serverWebhookRoute (fun k m => k ++ "/" ++ m) "s"
      (.jobj [("event", .jstr "payment.captured")]) "WRONG"
      ⟨[⟨1, "alice", 0⟩], []⟩ =
      (⟨[⟨1, "alice", 0⟩], []⟩, .invalidSignature) := by
  constructor
  · exact webhook_signature_enforcement.1 _ "s" "body" _ "WRONG" _ (by decide)
  · exact webhook_signature_enforcement.2 _ "s" _ "WRONG" _
      (by with_unfolding_all decide)

/-- C4 counterexample: src/server.js does not hash the exact raw request
bytes.  The raw body `{"event": "ping"}` (note the space) parses to the
object modelled by `Json.jobj [("event", Json.jstr "ping")]`, whose
re-serialization `JSON.stringify(req.body)` is `{"event":"ping"}` — a
different byte string.  Consequently a request carrying the gateway's
correct signature, computed over the raw bytes, is rejected by
src/server.js (shown here for a concrete keyed-hash stand-in; HMAC-SHA256
likewise maps the two distinct strings to distinct digests). -/
theorem server_webhook_reserialization_cex :
    ¬ serverWebhookHmacInput (.jobj [("event", .jstr "ping")]) =
      "\x7b\"event\": \"ping\"\x7d" ∧
    serverWebhookRoute (fun k m => k ++ "/" ++ m) "sec"
      (.jobj [("event", .jstr "ping")])
      ((fun k m => k ++ "/" ++ m) "sec" "\x7b\"event\": \"ping\"\x7d")
      ⟨[⟨1, "alice", 7⟩], []⟩ =
      (⟨[⟨1, "alice", 7⟩], []⟩, .invalidSignature) := by
  constructor <;> with_unfolding_all decide

/-! ## C5 -/

/-- Explicit result of a webhook delivery whose signature matches and
whose capture event resolves to a user: the user is credited
`payment.amount / 100` and one `purchase` transaction row carrying
`payment.id` is appended.  No existing row is consulted first — the
handler never reads the transactions table. -/
theorem webhookRoute_success_eq (hm : String → String → String)
    (secret raw : String) (ev : RzpEvent) (signature : String) (db : DB)
    (payment : PaymentEntity) (username : String) (user : User)
    (hsig : signature = hm secret raw)
    (hev : ev.event = "payment.captured")
    (hpay : ev.payment = some payment)
    (husr : payment.notes_username = some username)
    (hemp : ¬ username = "")
    (huser : findUser db username = some user) :
    webhookRoute hm secret raw ev signature db =
      ({ updateUserBalance db user.id (user.token_balance + payment.amount / 100) with
          transactions := db.transactions ++
            [⟨some user.id, "purchase", payment.amount / 100, some payment.payment_id⟩] },
        .ok) := by
  unfold webhookRoute
  rw [if_neg (by simp [hsig])]
  rw [if_neg (by simp [hev])]
  rw [hpay]
  dsimp only
  rw [husr]
  dsimp only
  rw [if_neg (by simp [hemp])]
  rw [huser]
  rfl

/-- C5 (amended): the webhook reconciler does NOT deduplicate by external
reference id — delivering the same `payment.captured` event (same
`payment.id`) twice credits the target balance twice and appends two
identical `purchase` audit rows. -/
theorem webhook_double_delivery (hm : String → String → String)
    (secret raw : String) (ev : RzpEvent) (signature : String) (db : DB)
    (payment : PaymentEntity) (username : String) (user : User)
    (hsig : signature = hm secret raw)
    (hev : ev.event = "payment.captured")
    (hpay : ev.payment = some payment)
    (husr : payment.notes_username = some username)
    (hemp : ¬ username = "")
    (huser : findUser db username = some user) :
    findUser (webhookRoute hm secret raw ev signature
        (webhookRoute hm secret raw ev signature db).1).1 username =
      some { user with token_balance :=
        user.token_balance + payment.amount / 100 + payment.amount / 100 } ∧
    (webhookRoute hm secret raw ev signature
        (webhookRoute hm secret raw ev signature db).1).1.transactions =
      db.transactions ++
        [⟨some user.id, "purchase", payment.amount / 100, some payment.payment_id⟩] ++
        [⟨some user.id, "purchase", payment.amount / 100, some payment.payment_id⟩] ∧
    (webhookRoute hm secret raw ev signature
        (webhookRoute hm secret raw ev signature db).1).2 = .ok := by
  have h1 := webhookRoute_success_eq hm secret raw ev signature db
    payment username user hsig hev hpay husr hemp huser
  have l1 : findUser (webhookRoute hm secret raw ev signature db).1 username =
      some { user with token_balance := user.token_balance + payment.amount / 100 } := by
    rw [h1]
    show findUser
      (updateUserBalance db user.id (user.token_balance + payment.amount / 100)) username = _
    rw [findUser_updateUserBalance, huser]
    simp
  have h2 := webhookRoute_success_eq hm secret raw ev signature
    (webhookRoute hm secret raw ev signature db).1
    payment username { user with token_balance := user.token_balance + payment.amount / 100 }
    hsig hev hpay husr hemp l1
  refine ⟨?_, ?_, ?_⟩
  · rw [h2]
    show findUser
      (updateUserBalance (webhookRoute hm secret raw ev signature db).1 user.id
        (user.token_balance + payment.amount / 100 + payment.amount / 100)) username = _
    rw [findUser_updateUserBalance, l1]
    simp
  · rw [h2]
    show (webhookRoute hm secret raw ev signature db).1.transactions ++
      [⟨some user.id, "purchase", payment.amount / 100, some payment.payment_id⟩] = _
    rw [h1]
  · rw [h2]

/-- C5 witness and, at the same time, the counterexample data for the
claim as stated: delivering the same 100-paise capture event (reference
id `pay_1`) twice leaves alice with 2 tokens — two credits, not one. -/
theorem webhook_double_delivery_witness :
    findUser (webhookRoute (fun k m => k ++ "|" ++ m) "sec" "raw"
        ⟨"payment.captured", some ⟨100, some "alice", "pay_1"⟩⟩ "sec|raw"
        (webhookRoute (fun k m => k ++ "|" ++ m) "sec" "raw"
          ⟨"payment.captured", some ⟨100, some "alice", "pay_1"⟩⟩ "sec|raw"
          ⟨[⟨1, "alice", 0⟩], [], 0, [], []⟩).1).1 "alice" =
      some ⟨1, "alice", 0 + 100 / 100 + 100 / 100⟩ := by
  have h := webhook_double_delivery (fun k m => k ++ "|" ++ m) "sec" "raw"
    ⟨"payment.captured", some ⟨100, some "alice", "pay_1"⟩⟩ "sec|raw"
    ⟨[⟨1, "alice", 0⟩], [], 0, [], []⟩ ⟨100, some "alice", "pay_1"⟩ "alice"
    ⟨1, "alice", 0⟩ rfl rfl rfl rfl (by decide) (by with_unfolding_all decide)
  exact h.1

/-- C5 counterexample: the same capture event delivered twice yields a
balance of 2 tokens (two credits of `100/100`) and two `purchase` audit
rows carrying the same external reference id `pay_1` — not one credit
and one audit record as claimed. -/
theorem webhook_no_dedup_cex :
    findUser (webhookRoute (fun k m => k ++ "|" ++ m) "sec" "raw"
        ⟨"payment.captured", some ⟨100, some "alice", "pay_1"⟩⟩ "sec|raw"
        (webhookRoute (fun k m => k ++ "|" ++ m) "sec" "raw"
          ⟨"payment.captured", some ⟨100, some "alice", "pay_1"⟩⟩ "sec|raw"
          ⟨[⟨1, "alice", 0⟩], [], 0, [], []⟩).1).1 "alice" =
      some ⟨1, "alice", 2⟩ ∧
    ((webhookRoute (fun k m => k ++ "|" ++ m) "sec" "raw"
        ⟨"payment.captured", some ⟨100, some "alice", "pay_1"⟩⟩ "sec|raw"
        (webhookRoute (fun k m => k ++ "|" ++ m) "sec" "raw"
          ⟨"payment.captured", some ⟨100, some "alice", "pay_1"⟩⟩ "sec|raw"
          ⟨[⟨1, "alice", 0⟩], [], 0, [], []⟩).1).1.transactions.filter
      (fun t => t.reference_id == some "pay_1")).length = 2 := by
  constructor <;> with_unfolding_all decide

/-! ## C6 -/

/-- C6 (amended): once the supplied signature matches the computed
digest, src/server.js always answers HTTP 200 (`{status:'ok'}` or
`{status:'ignored_no_username'}`) — for non-capture events, for capture
events without a username, and for capture events whose username matches
no account — each case leaving the datastore unchanged, and only a
signature mismatch yields 400.  src/index.js however answers 400
(`Username missing`) when the capture event carries no username and 404
(`User not found`) when the username matches no account; both are
no-ops, but they are not HTTP 200 and are not signature failures. -/
theorem webhook_post_signature_statuses :
    (∀ hm secret raw ev signature db, signature = hm secret raw →
        ¬ ev.event = "payment.captured" →
      webhookRoute hm secret raw ev signature db = (db, .ignored) ∧
        hookStatus .ignored = 200) ∧
    (∀ hm secret raw ev signature db payment, signature = hm secret raw →
        ev.event = "payment.captured" → ev.payment = some payment →
        payment.notes_username = none →
      webhookRoute hm secret raw ev signature db = (db, .usernameMissing) ∧
        hookStatus .usernameMissing = 400) ∧
    (∀ hm secret raw ev signature db payment username, signature = hm secret raw →
        ev.event = "payment.captured" → ev.payment = some payment →
        payment.notes_username = some username → ¬ username = "" →
        findUser db username = none →
      webhookRoute hm secret raw ev signature db = (db, .userNotFound) ∧
        hookStatus .userNotFound = 404) ∧
    (∀ hm secret body signature db, hm secret (serverWebhookHmacInput body) = signature →
        jsStrEq (match jsGet body "event" with
          | .ok v => v | .error _ => .null) "payment.captured" = false →
      serverWebhookRoute hm secret body signature db = (db, .okStatus) ∧
        srvHookStatus .okStatus = 200) ∧
    (∀ hm secret body signature db aj tu, hm secret (serverWebhookHmacInput body) = signature →
        jsStrEq (match jsGet body "event" with
          | .ok v => v | .error _ => .null) "payment.captured" = true →
        serverWebhookTarget body = .ok (aj, tu) → jsTruthy tu = false →
      serverWebhookRoute hm secret body signature db = (db, .ignoredNoUsername) ∧
        srvHookStatus .ignoredNoUsername = 200) ∧
    (∀ hm secret body signature db aj s, hm secret (serverWebhookHmacInput body) = signature →
        jsStrEq (match jsGet body "event" with
          | .ok v => v | .error _ => .null) "payment.captured" = true →
        serverWebhookTarget body = .ok (aj, .jstr s) → ¬ s = "" →
        findSUserByName db s = none →
      serverWebhookRoute hm secret body signature db = (db, .okStatus) ∧
        srvHookStatus .okStatus = 200) := by
  refine ⟨?_, ?_, ?_, ?_, ?_, ?_⟩
  · intro hm secret raw ev signature db hsig hev
    refine ⟨?_, rfl⟩
    unfold webhookRoute
    rw [if_neg (by simp [hsig])]
    rw [if_pos (by simp [bne_iff_ne, hev])]
  · intro hm secret raw ev signature db payment hsig hev hpay husr
    refine ⟨?_, rfl⟩
    unfold webhookRoute
    rw [if_neg (by simp [hsig])]
    rw [if_neg (by simp [hev])]
    rw [hpay]
    dsimp only
    rw [husr]
  · intro hm secret raw ev signature db payment username hsig hev hpay husr hemp huser
    refine ⟨?_, rfl⟩
    unfold webhookRoute
    rw [if_neg (by simp [hsig])]
    rw [if_neg (by simp [hev])]
    rw [hpay]
    dsimp only
    rw [husr]
    dsimp only
    rw [if_neg (by simp [hemp])]
    rw [huser]
  · intro hm secret body signature db hsig hev
    refine ⟨?_, rfl⟩
    unfold serverWebhookRoute
    rw [if_pos (by simp [hsig])]
    rw [hev]
    simp
  · intro hm secret body signature db aj tu hsig hev htar hfalsy
    refine ⟨?_, rfl⟩
    unfold serverWebhookRoute
    rw [if_pos (by simp [hsig])]
    rw [hev]
    simp only [if_true]
    rw [htar]
    dsimp only
    rw [if_pos (by simp [hfalsy])]
  · intro hm secret body signature db aj s hsig hev htar hs hnone
    refine ⟨?_, rfl⟩
    unfold serverWebhookRoute
    rw [if_pos (by simp [hsig])]
    rw [hev]
    simp only [if_true]
    rw [htar]
    dsimp only
    rw [if_neg (by simp [jsTruthy, hs])]
    rw [hnone]

/-- C6 witness: concrete instances — a validly signed `ping` event is
ignored with 200 by src/index.js; a validly signed capture event whose
username resolves to no account is answered `{status:'ok'}` (200) by
src/server.js with no balance change. -/
theorem webhook_post_signature_statuses_witness :
    (webhookRoute (fun k m => k ++ "|" ++ m) "sec" "raw" ⟨"ping", none⟩ "sec|raw"
      ⟨[⟨1, "alice", 0⟩], [], 0, [], []⟩ =
      (⟨[⟨1, "alice", 0⟩], [], 0, [], []⟩, .ignored) ∧ hookStatus .ignored = 200) ∧
    (serverWebhookRoute (fun k m => k ++ "|" ++ m) "sec"
      (.jobj [("event", .jstr "payment.captured"),
              ("payload", .jobj [("payment", .jobj [("entity", .jobj
                [("amount", .jnum 100), ("notes", .jobj [("username", .jstr "ghost")])])])])])
      ((fun k m => k ++ "|" ++ m) "sec" (serverWebhookHmacInput
        (.jobj [("event", .jstr "payment.captured"),
              ("payload", .jobj [("payment", .jobj [("entity", .jobj
                [("amount", .jnum 100), ("notes", .jobj [("username", .jstr "ghost")])])])])])))
      ⟨[⟨1, "alice", 0⟩], []⟩ =
      (⟨[⟨1, "alice", 0⟩], []⟩, .okStatus) ∧ srvHookStatus .okStatus = 200) := by
  constructor
  · exact webhook_post_signature_statuses.1 _ "sec" "raw" _ "sec|raw" _ rfl (by decide)
  · exact webhook_post_signature_statuses.2.2.2.2.2 _ "sec" _ _ _ (.jnum 100) "ghost"
      rfl (by with_unfolding_all decide) rfl
      (by decide) (by with_unfolding_all decide)

/-- C6 counterexample: a validly signed capture event with no username in
its notes is answered HTTP 400 (`Username missing`) by src/index.js, and
a validly signed capture event for an unknown user is answered HTTP 404 —
the reconciler does not always respond with success once the signature is
valid, and signature failure is not the only source of 400. -/
theorem webhook_not_always_200_cex :
    hookStatus (webhookRoute (fun k m => k ++ "|" ++ m) "sec" "raw"
      ⟨"payment.captured", some ⟨100, none, "p"⟩⟩ "sec|raw"
      ⟨[⟨1, "alice", 0⟩], [], 0, [], []⟩).2 = 400 ∧
    ¬ (webhookRoute (fun k m => k ++ "|" ++ m) "sec" "raw"
      ⟨"payment.captured", some ⟨100, none, "p"⟩⟩ "sec|raw"
      ⟨[⟨1, "alice", 0⟩], [], 0, [], []⟩).2 = .invalidSignature ∧
    "sec|raw" = (fun k m => k ++ "|" ++ m) "sec" "raw" ∧
    hookStatus (webhookRoute (fun k m => k ++ "|" ++ m) "sec" "raw"
      ⟨"payment.captured", some ⟨100, some "ghost", "p"⟩⟩ "sec|raw"
      ⟨[⟨1, "alice", 0⟩], [], 0, [], []⟩).2 = 404 := by
  refine ⟨?_, ?_, ?_, ?_⟩ <;> with_unfolding_all decide

/-! ## C7 -/

/-- C7 (amended): for a present, truthy amount (with the other fields
present), src/index.js rejects with `Minimum tip is 10 tokens` exactly
when `amount < 10` — there is no integrality test, so any number
`≥ 10`, integer or not, passes validation and the attempt proceeds to
the sender/receiver/balance checks (a missing or zero amount is caught
earlier by the missing-fields check). -/
theorem tip_amount_validation (db : DB) (body : TipBody) (a : ℚ)
    (ha : body.amount = some a) (ha0 : ¬ a = 0)
    (hfrom : ¬ body.from_username = "") (hto : ¬ body.to_creator = "") :
    ((tipRoute db body).2 = .belowMin ↔ a < 10) ∧
    (¬ a < 10 →
      (tipRoute db body).2 = .insufficientTokens ∨
      (tipRoute db body).2 = .creatorNotFound ∨
      ∃ r, (tipRoute db body).2 = .success r) := by
  have hstep : tipRoute db body =
      (if a < 10 then (db, .belowMin)
       else
        match findUser db body.from_username with
        | none => (db, .insufficientTokens)
        | some viewer =>
          if viewer.token_balance < a then (db, .insufficientTokens)
          else
            match findCreator db body.to_creator with
            | none => (db, .creatorNotFound)
            | some creator =>
              (let cs : ℚ := ((a * (92 / 100)).floor : ℤ)
               let db1 : DB := updateUserBalance db viewer.id (viewer.token_balance - a)
               let db2 : DB := updateCreatorBalance db1 creator.id (creator.payout_balance + cs)
               let db3 : DB := { db2 with platform_balance := db2.platform_balance + (a - cs) }
               let db4 : DB := { db3 with tips := db3.tips ++ [⟨viewer.id, creator.id, a, body.message⟩] }
               ({ db4 with transactions := db4.transactions ++
                  [⟨some viewer.id, "tip_sent", a, none⟩,
                   ⟨some creator.id, "tip_received", cs, none⟩,
                   ⟨none, "platform_fee", a - cs, none⟩] }, .success cs))) := by
    unfold tipRoute
    rw [if_neg (by simp [ha, jsFalsyNum, hfrom, hto, ha0])]
    simp only [ha, Option.getD_some]
  rw [hstep]
  by_cases hlt : a < 10
  · rw [if_pos hlt]
    exact ⟨by simpa using hlt, fun hn => absurd hlt hn⟩
  rw [if_neg hlt]
  cases hview : findUser db body.from_username with
  | none => exact ⟨by simpa using hlt, fun _ => Or.inl rfl⟩
  | some viewer =>
    dsimp only
    by_cases hbal : viewer.token_balance < a
    · rw [if_pos hbal]
      exact ⟨by simpa using hlt, fun _ => Or.inl rfl⟩
    rw [if_neg hbal]
    cases hcrea : findCreator db body.to_creator with
    | none => exact ⟨by simpa using hlt, fun _ => Or.inr (Or.inl rfl)⟩
    | some creator =>
      dsimp only
      exact ⟨by simpa using hlt, fun _ => Or.inr (Or.inr ⟨_, rfl⟩)⟩

/-- C7 witness: amount 5 is exactly the below-minimum case; amount 21/2
(= 10.5), a non-integer ≥ 10, passes validation and the attempt proceeds
past the amount check. -/
theorem tip_amount_validation_witness :
    ((tipRoute ⟨[⟨1, "alice", 100⟩], [⟨7, "bob", 0⟩], 0, [], []⟩
        ⟨"alice", "bob", some 5, "m"⟩).2 = .belowMin ↔ (5 : ℚ) < 10) ∧
    ((tipRoute ⟨[⟨1, "alice", 100⟩], [⟨7, "bob", 0⟩], 0, [], []⟩
        ⟨"alice", "bob", some (21 / 2), "m"⟩).2 = .insufficientTokens ∨
     (tipRoute ⟨[⟨1, "alice", 100⟩], [⟨7, "bob", 0⟩], 0, [], []⟩
        ⟨"alice", "bob", some (21 / 2), "m"⟩).2 = .creatorNotFound ∨
     ∃ r, (tipRoute ⟨[⟨1, "alice", 100⟩], [⟨7, "bob", 0⟩], 0, [], []⟩
        ⟨"alice", "bob", some (21 / 2), "m"⟩).2 = .success r) := by
  constructor
  · exact (tip_amount_validation _ _ 5 rfl (by with_unfolding_all decide)
      (by decide) (by decide)).1
  · exact (tip_amount_validation _ _ (21 / 2) rfl (by with_unfolding_all decide)
      (by decide) (by decide)).2 (by with_unfolding_all decide)

/-- C7 counterexample: the non-integer amount 10.5 (= 21/2) passes
validation and settles successfully (`creator_received = ⌊10.5 × 0.92⌋ =
9`), although the claim says every accepted amount is a positive
integer; the denominator of 21/2 is 2, so it is no integer. -/
theorem tip_non_integer_amount_cex :
    (tipRoute ⟨[⟨1, "alice", 100⟩], [⟨7, "bob", 0⟩], 0, [], []⟩
      ⟨"alice", "bob", some (21 / 2), "m"⟩).2 = .success 9 ∧
    ¬ (21 / 2 : ℚ).den = 1 := by
  constructor <;> with_unfolding_all decide

/-! ## C8 -/

/-- C8: the settlement outcome and the resulting datastore state of
src/index.js are identical for every state of the subscriber table — in
particular for an empty room (zero subscribers) — and the delivered-to
list is computed only after all ledger writes, from the success outcome.
The publish step cannot fail the settlement or alter its ledger
effect. -/
theorem tip_notification_isolation :
    (∀ subsA subsB : String → List Nat, ∀ db body,
      (tipRouteWithNotify subsA db body).1 = (tipRouteWithNotify subsB db body).1 ∧
      (tipRouteWithNotify subsA db body).2.1 = (tipRouteWithNotify subsB db body).2.1) ∧
    (∀ db body,
      (tipRouteWithNotify (fun _ => []) db body).1 = (tipRoute db body).1 ∧
      (tipRouteWithNotify (fun _ => []) db body).2.1 = (tipRoute db body).2) := by
  constructor
  · intro subsA subsB db body
    unfold tipRouteWithNotify
    cases h : tipRoute db body with
    | mk db2 out => cases out <;> simp
  · intro db body
    unfold tipRouteWithNotify
    cases h : tipRoute db body with
    | mk db2 out => cases out <;> simp

/-! ## C9 -/

/-- Adjusting a balance commutes with lookup by id. -/
theorem findSUserById_adjust (db : SDB) (uid : Nat) (d : ℚ) (tid : Nat) :
    findSUserById (adjustSBalance db uid d) tid =
      (findSUserById db tid).map
        (fun u => if u.id == uid then { u with balance := u.balance + d } else u) := by
  unfold findSUserById adjustSBalance
  rw [find?_map_eq]
  have hp : (fun a : SUser =>
      (if (a.id == uid) = true then { a with balance := a.balance + d } else a).id == tid) =
      (fun u : SUser => u.id == tid) := by
    funext u
    by_cases h : (u.id == uid) = true <;> simp [h]
  rw [hp]

/-- C9 (amended): in src/server.js the debited account is the one named
by the verified bearer token (`req.user.id`) — the request body carries
no sender field, every account other than the token identity and the
receiver is untouched, and the token identity is debited exactly
`amount` — but the success response carries only a message, not
`creatorReceived`.  In src/index.js the success response does carry
`creator_received = ⌊amount × 0.92⌋`, but the debited account is chosen
by the unauthenticated `from_username` body field (see the
counterexample). -/
theorem server_tip_sender_identity (db : SDB) (senderId : Nat) (body : STipBody)
    (rec snd : SUser)
    (hmin : ¬ body.amount < 10)
    (hrec : findSUserByName db body.receiverUsername = some rec)
    (hsnd : findSUserById db senderId = some snd)
    (hbal : ¬ snd.balance < body.amount) :
    ((serverTipRoute db senderId body).2 = .sent ∧
     (∀ u ∈ db.users, ¬ u.id = senderId → ¬ u.id = rec.id →
        u ∈ (serverTipRoute db senderId body).1.users) ∧
     (¬ senderId = rec.id →
        findSUserById (serverTipRoute db senderId body).1 senderId =
          some { snd with balance := snd.balance - body.amount })) ∧
    (∀ db2 body2 db3 r, tipRoute db2 body2 = (db3, .success r) →
        r = (((body2.amount.getD 0 * (92 / 100)).floor : ℤ) : ℚ)) := by
  have hsid : snd.id = senderId := by
    have := List.find?_some hsnd
    simpa using this
  have hstep : serverTipRoute db senderId body =
      ({ adjustSBalance (adjustSBalance db senderId (-body.amount)) rec.id
          (body.amount - body.amount * (8 / 100)) with
         tips := (adjustSBalance (adjustSBalance db senderId (-body.amount)) rec.id
          (body.amount - body.amount * (8 / 100))).tips ++
            [⟨senderId, rec.id, body.amount, body.message⟩] }, .sent) := by
    unfold serverTipRoute
    rw [if_neg hmin, hrec]
    dsimp only
    rw [hsnd]
    dsimp only
    rw [if_neg hbal]
  refine ⟨⟨?_, ?_, ?_⟩, ?_⟩
  · rw [hstep]
  · intro u hu hne1 hne2
    rw [hstep]
    show u ∈ ((adjustSBalance (adjustSBalance db senderId (-body.amount)) rec.id
      (body.amount - body.amount * (8 / 100))).users)
    unfold adjustSBalance
    refine List.mem_map.mpr ⟨_, List.mem_map.mpr ⟨u, hu, rfl⟩, ?_⟩
    simp [hne1, hne2]
  · intro hne
    rw [hstep]
    show findSUserById (adjustSBalance (adjustSBalance db senderId (-body.amount)) rec.id
      (body.amount - body.amount * (8 / 100))) senderId = _
    rw [findSUserById_adjust, findSUserById_adjust, hsnd]
    simp only [Option.map_some']
    simp [hsid, hne, sub_eq_add_neg]
  · intro db2 body2 db3 r heq
    rcases tipRoute_result_cases db2 body2 with ⟨-, hnos⟩ | ⟨viewer, creator, _, _, _, _, hsucc⟩
    · exact absurd (by rw [heq]) (hnos r)
    · rw [hsucc] at heq
      have h2 : (((body2.amount.getD 0 * (92 / 100)).floor : ℤ) : ℚ) = r := by
        simpa using congrArg Prod.snd heq
      exact h2.symm

/-- C9 witness: with bearer identity 1 (balance 100) tipping creator
`c`, the outcome is `sent`, the uninvolved account 3 is untouched, and
account 1 is debited exactly the amount; the src/index.js success
response value equals `⌊amount × 0.92⌋`. -/
theorem server_tip_sender_identity_witness :
    ((serverTipRoute ⟨[⟨1, "v", 100⟩, ⟨2, "c", 0⟩, ⟨3, "w", 9⟩], []⟩ 1
        ⟨"c", 10, "m"⟩).2 = .sent ∧
     (∀ u ∈ ([⟨1, "v", 100⟩, ⟨2, "c", 0⟩, ⟨3, "w", 9⟩] : List SUser),
        ¬ u.id = 1 → ¬ u.id = 2 →
        u ∈ (serverTipRoute ⟨[⟨1, "v", 100⟩, ⟨2, "c", 0⟩, ⟨3, "w", 9⟩], []⟩ 1
          ⟨"c", 10, "m"⟩).1.users) ∧
     (¬ 1 = 2 →
        findSUserById (serverTipRoute ⟨[⟨1, "v", 100⟩, ⟨2, "c", 0⟩, ⟨3, "w", 9⟩], []⟩ 1
          ⟨"c", 10, "m"⟩).1 1 = some ⟨1, "v", 100 - 10⟩)) ∧
    (∀ db2 body2 db3 r, tipRoute db2 body2 = (db3, .success r) →
        r = (((body2.amount.getD 0 * (92 / 100)).floor : ℤ) : ℚ)) := by
  exact server_tip_sender_identity ⟨[⟨1, "v", 100⟩, ⟨2, "c", 0⟩, ⟨3, "w", 9⟩], []⟩ 1
    ⟨"c", 10, "m"⟩ ⟨2, "c", 0⟩ ⟨1, "v", 100⟩
    (by with_unfolding_all decide) (by with_unfolding_all decide)
    (by with_unfolding_all decide) (by with_unfolding_all decide)

/-- C9 counterexample: in src/index.js the debited account is selected by
the `from_username` field of the unauthenticated request body — two
requests identical except for that field debit two different accounts —
so no bearer token determines the sender. -/
theorem tip_sender_from_body_cex :
    findUser (tipRoute ⟨[⟨1, "alice", 500⟩, ⟨2, "bob", 500⟩], [⟨7, "carol", 0⟩], 0, [], []⟩
      ⟨"alice", "carol", some 100, "m"⟩).1 "alice" = some ⟨1, "alice", 400⟩ ∧
    findUser (tipRoute ⟨[⟨1, "alice", 500⟩, ⟨2, "bob", 500⟩], [⟨7, "carol", 0⟩], 0, [], []⟩
      ⟨"alice", "carol", some 100, "m"⟩).1 "bob" = some ⟨2, "bob", 500⟩ ∧
    findUser (tipRoute ⟨[⟨1, "alice", 500⟩, ⟨2, "bob", 500⟩], [⟨7, "carol", 0⟩], 0, [], []⟩
      ⟨"bob", "carol", some 100, "m"⟩).1 "bob" = some ⟨2, "bob", 400⟩ ∧
    findUser (tipRoute ⟨[⟨1, "alice", 500⟩, ⟨2, "bob", 500⟩], [⟨7, "carol", 0⟩], 0, [], []⟩
      ⟨"bob", "carol", some 100, "m"⟩).1 "alice" = some ⟨1, "alice", 500⟩ := by
  refine ⟨?_, ?_, ?_, ?_⟩ <;> with_unfolding_all decide

/-! ## C10 -/

/-- C10: for every webhook capture event with a matching signature and a
resolvable username, src/index.js credits the target token balance by
exactly `payment.amount / 100` — exact rational division, with no
rounding and no integrality check — and appends one `purchase` row for
the same exact quantity.  A paise amount not divisible by 100 therefore
yields a fractional token credit (see the witness). -/
theorem webhook_credit_exact_division (hm : String → String → String)
    (secret raw : String) (ev : RzpEvent) (signature : String) (db : DB)
    (payment : PaymentEntity) (username : String) (user : User)
    (hsig : signature = hm secret raw)
    (hev : ev.event = "payment.captured")
    (hpay : ev.payment = some payment)
    (husr : payment.notes_username = some username)
    (hemp : ¬ username = "")
    (huser : findUser db username = some user) :
    (webhookRoute hm secret raw ev signature db).2 = .ok ∧
    findUser (webhookRoute hm secret raw ev signature db).1 username =
      some { user with token_balance := user.token_balance + payment.amount / 100 } ∧
    (webhookRoute hm secret raw ev signature db).1.transactions =
      db.transactions ++
        [⟨some user.id, "purchase", payment.amount / 100, some payment.payment_id⟩] := by
  have h := webhookRoute_success_eq hm secret raw ev signature db
    payment username user hsig hev hpay husr hemp huser
  refine ⟨by rw [h], ?_, by rw [h]⟩
  rw [h]
  show findUser
    (updateUserBalance db user.id (user.token_balance + payment.amount / 100)) username = _
  rw [findUser_updateUserBalance, huser]
  simp

/-- C10 witness: a 10050-paise capture event credits exactly
`10050 / 100 = 100.5` tokens — a fractional credit (denominator 2). -/
theorem webhook_credit_exact_division_witness :
    findUser (webhookRoute (fun k m => k ++ "|" ++ m) "sec" "raw"
      ⟨"payment.captured", some ⟨10050, some "alice", "pay_7"⟩⟩ "sec|raw"
      ⟨[⟨1, "alice", 0⟩], [], 0, [], []⟩).1 "alice" =
      some ⟨1, "alice", 0 + 10050 / 100⟩ ∧
    ((0 : ℚ) + 10050 / 100).den = 2 := by
  constructor
  · exact (webhook_credit_exact_division (fun k m => k ++ "|" ++ m) "sec" "raw"
      ⟨"payment.captured", some ⟨10050, some "alice", "pay_7"⟩⟩ "sec|raw"
      ⟨[⟨1, "alice", 0⟩], [], 0, [], []⟩ ⟨10050, some "alice", "pay_7"⟩ "alice"
      ⟨1, "alice", 0⟩ rfl rfl rfl rfl (by decide)
      (by with_unfolding_all decide)).2.1
  · with_unfolding_all decide
